import Mathlib

/-!
Shallow embedding of `cryptfs_hw.c` (hardware-backed disk-encryption key
management shim).  Pure computations of the C file become Lean functions;
the process-wide mutable state (`loaded_library` and the three resolved
QSEECom function pointers) becomes an explicit `LibState` threaded through
the functions; calls into the opaque environment (system properties,
`dlopen`/`dlsym`, the TEE primitives, `malloc`, filesystem existence
checks, the hardware-module registry) are modelled by an `Env` record of
oracles.  Each operation additionally returns the list of observable
events it performed (polls, `dlopen`/`dlsym` calls, TEE primitive
invocations, `malloc` calls) and, for the key-setting paths, the fate of
every password buffer it allocated: the buffer's contents at the end of
the call and whether it was freed.  C strings (passwords, property
values) are NUL-terminated, so passwords are modelled as byte lists not
containing the terminator; machine integers never approach overflow here
(all values are small constants or opaque status codes), so `Int`/`Nat`
are used directly.
-/

/-- ERR_MAX_PASSWORD_ATTEMPTS from cryptfs_hw.c. -/
def ERR_MAX_PASSWORD_ATTEMPTS : Int := -10

/-- MAX_PASSWORD_LEN from cryptfs_hw.c. -/
def MAX_PASSWORD_LEN : Nat := 32

/-- QTI_ICE_STORAGE_UFS from cryptfs_hw.c. -/
def QTI_ICE_STORAGE_UFS : Int := 1

/-- QTI_ICE_STORAGE_SDCC from cryptfs_hw.c. -/
def QTI_ICE_STORAGE_SDCC : Int := 2

/-- SET_HW_DISK_ENC_KEY from cryptfs_hw.c. -/
def SET_HW_DISK_ENC_KEY : Int := 1

/-- UPDATE_HW_DISK_ENC_KEY from cryptfs_hw.c. -/
def UPDATE_HW_DISK_ENC_KEY : Int := 2

/-- CRYPTFS_HW_UP_CHECK_COUNT from cryptfs_hw.c (bounded poll count). -/
def CRYPTFS_HW_UP_CHECK_COUNT : Nat := 100

/-- CRYPTFS_HW_UPDATE_KEY_FAILED sentinel. -/
def CRYPTFS_HW_UPDATE_KEY_FAILED : Int := -9

/-- CRYPTFS_HW_WIPE_KEY_FAILED sentinel. -/
def CRYPTFS_HW_WIPE_KEY_FAILED : Int := -8

/-- CRYPTFS_HW_CREATE_KEY_FAILED sentinel. -/
def CRYPTFS_HW_CREATE_KEY_FAILED : Int := -7

/-- CRYPTFS_HW_KM_USAGE_DISK_ENCRYPTION usage tag. -/
def CRYPTFS_HW_KM_USAGE_DISK_ENCRYPTION : Int := 1

/-- CRYPTFS_HW_KM_USAGE_FILE_ENCRYPTION usage tag. -/
def CRYPTFS_HW_KM_USAGE_FILE_ENCRYPTION : Int := 2

/-- CRYPTFS_HW_KM_USAGE_UFS_ICE_DISK_ENCRYPTION usage tag. -/
def CRYPTFS_HW_KM_USAGE_UFS_ICE_DISK_ENCRYPTION : Int := 3

/-- CRYPTFS_HW_KM_USAGE_SDCC_ICE_DISK_ENCRYPTION usage tag. -/
def CRYPTFS_HW_KM_USAGE_SDCC_ICE_DISK_ENCRYPTION : Int := 4

/-- KEYMASTER_MODULE_API_VERSION_0_3 from keymaster_common.h:
HARDWARE_MODULE_API_VERSION(0, 3) = (0 << 8) | 3 = 3. -/
def KEYMASTER_MODULE_API_VERSION_0_3 : Int := 3

/-- Observable events of one call into the gateway. -/
inductive Event where
  | pollReadiness
  | dlopenCall
  | dlsymCall (sym : String)
  | teeCreate (usage : Int) (key : List Nat)
  | teeUpdate (usage : Int) (oldKey newKey : List Nat)
  | teeWipe (usage : Int)
  | mallocCall
  deriving DecidableEq

/-- Whether an event is an invocation of a TEE primitive
(QSEECom_create_key / QSEECom_update_key_user_info / QSEECom_wipe_key). -/
def isTeeEvent : Event → Bool
  | Event.teeCreate _ _ => true
  | Event.teeUpdate _ _ _ => true
  | Event.teeWipe _ => true
  | _ => false

/-- Fate of a password buffer allocated by a call: its byte contents when
the call returns (for a freed buffer, the contents at the moment of
`free`, which nothing changes afterwards) and whether it was freed. -/
structure BufFate where
  contents : List Nat
  freed : Bool
  deriving DecidableEq

/-- The opaque environment of cryptfs_hw.c: system properties, dynamic
loader outcomes, TEE primitive results, malloc outcomes (indexed by
call site within one gateway call: 0 is the `passwd` buffer, 1 the
`currentpasswd` buffer), filesystem existence checks and the hardware
module registry. -/
structure Env where
  keymasterLoadedPolls : Nat → String
  dlopenOk : Bool
  dlsymCreateOk : Bool
  dlsymUpdateOk : Bool
  dlsymWipeOk : Bool
  qseecomCreate : Int → List Nat → Int
  qseecomUpdate : Int → List Nat → List Nat → Int
  qseecomWipe : Int → Int
  metadataExists : Bool
  bootdevice : String
  icesdccExists : Bool
  mallocOk : Nat → Bool
  hwGetModuleRc : Int
  moduleApiVersion : Int

/-- The process-wide mutable state: the memoized `loaded_library` flag
(a C int, 0 or 1) and whether each QSEECom symbol has been assigned from
a successful `dlsym` resolution. -/
structure LibState where
  loaded_library : Nat
  createResolved : Bool
  updateResolved : Bool
  wipeResolved : Bool
  deriving DecidableEq

/-- The state at process start: flag clear, nothing resolved. -/
def initState : LibState := ⟨0, false, false, false⟩

/-- List-level test that `needle` is a leading segment of `hay`. -/
def startsWithL : List Char → List Char → Bool
  | [], _ => true
  | _ :: _, [] => false
  | a :: as, b :: bs => (a = b) && startsWithL as bs

/-- List-level substring search, the semantics of C `strstr ≠ NULL`. -/
def containsL (needle : List Char) : List Char → Bool
  | [] => startsWithL needle []
  | h :: t => startsWithL needle (h :: t) || containsL needle t

/-- Whether `strstr hay needle` finds the needle. -/
def strstrFound (hay needle : String) : Bool := containsL needle.data hay.data

/-- The poll loop body of `is_qseecom_up`: starting at iteration `i` with
`fuel` iterations left, return 1 as soon as the property reads "true"
(the C `strncmp(value, "true", PROPERTY_VALUE_MAX)` is string equality,
since property values are shorter than PROPERTY_VALUE_MAX), else 0 after
the fuel is exhausted.  Each iteration performs one property read,
recorded as a `pollReadiness` event. -/
def is_qseecom_up_from (env : Env) (i : Nat) : Nat → Nat × List Event
  | 0 => (0, [])
  | Nat.succ fuel =>
    if env.keymasterLoadedPolls i = "true" then (1, [Event.pollReadiness])
    else
      ((is_qseecom_up_from env (i + 1) fuel).1,
       Event.pollReadiness :: (is_qseecom_up_from env (i + 1) fuel).2)

/-- `is_qseecom_up` from cryptfs_hw.c: poll `sys.keymaster.loaded` up to
CRYPTFS_HW_UP_CHECK_COUNT times. -/
def is_qseecom_up (env : Env) : Nat × List Event :=
  is_qseecom_up_from env 0 CRYPTFS_HW_UP_CHECK_COUNT

/-- `load_qseecom_library` from cryptfs_hw.c.  If the flag is already
set, return it at once (no poll, no resolution).  Otherwise wait for
readiness; on timeout return 0 with the state unchanged.  Then `dlopen`
and resolve the three entry points strictly in the order create, update,
wipe, aborting on the first failure (the C code then `dlclose`s the
handle and leaves `loaded_library` clear); only when all three resolved
does it set `loaded_library` to 1. -/
def load_qseecom_library (env : Env) (s : LibState) : Nat × LibState × List Event :=
  if s.loaded_library ≠ 0 then (s.loaded_library, s, [])
  else if (is_qseecom_up env).1 = 0 then (0, s, (is_qseecom_up env).2)
  else if env.dlopenOk then
    if env.dlsymCreateOk then
      if env.dlsymUpdateOk then
        if env.dlsymWipeOk then
          (1, { loaded_library := 1, createResolved := true, updateResolved := true, wipeResolved := true },
           (is_qseecom_up env).2 ++
             [Event.dlopenCall, Event.dlsymCall "QSEECom_create_key",
              Event.dlsymCall "QSEECom_update_key_user_info", Event.dlsymCall "QSEECom_wipe_key"])
        else
          (0, { s with createResolved := true, updateResolved := true },
           (is_qseecom_up env).2 ++
             [Event.dlopenCall, Event.dlsymCall "QSEECom_create_key",
              Event.dlsymCall "QSEECom_update_key_user_info", Event.dlsymCall "QSEECom_wipe_key"])
      else
        (0, { s with createResolved := true },
         (is_qseecom_up env).2 ++
           [Event.dlopenCall, Event.dlsymCall "QSEECom_create_key",
            Event.dlsymCall "QSEECom_update_key_user_info"])
    else
      (0, s, (is_qseecom_up env).2 ++ [Event.dlopenCall, Event.dlsymCall "QSEECom_create_key"])
  else (0, s, (is_qseecom_up env).2 ++ [Event.dlopenCall])

/-- `cryptfs_hw_create_key` from cryptfs_hw.c. -/
def cryptfs_hw_create_key (env : Env) (s : LibState) (usage : Int) (hash32 : List Nat) :
    Int × LibState × List Event :=
  if (load_qseecom_library env s).1 ≠ 0 then
    (env.qseecomCreate usage hash32, (load_qseecom_library env s).2.1,
     (load_qseecom_library env s).2.2 ++ [Event.teeCreate usage hash32])
  else (CRYPTFS_HW_CREATE_KEY_FAILED, (load_qseecom_library env s).2.1, (load_qseecom_library env s).2.2)

/-- `cryptfs_hw_wipe_key` from cryptfs_hw.c. -/
def cryptfs_hw_wipe_key (env : Env) (s : LibState) (usage : Int) :
    Int × LibState × List Event :=
  if (load_qseecom_library env s).1 ≠ 0 then
    (env.qseecomWipe usage, (load_qseecom_library env s).2.1,
     (load_qseecom_library env s).2.2 ++ [Event.teeWipe usage])
  else (CRYPTFS_HW_WIPE_KEY_FAILED, (load_qseecom_library env s).2.1, (load_qseecom_library env s).2.2)

/-- `cryptfs_hw_update_key` from cryptfs_hw.c. -/
def cryptfs_hw_update_key (env : Env) (s : LibState) (usage : Int)
    (current_hash32 new_hash32 : List Nat) : Int × LibState × List Event :=
  if (load_qseecom_library env s).1 ≠ 0 then
    (env.qseecomUpdate usage current_hash32 new_hash32, (load_qseecom_library env s).2.1,
     (load_qseecom_library env s).2.2 ++ [Event.teeUpdate usage current_hash32 new_hash32])
  else (CRYPTFS_HW_UPDATE_KEY_FAILED, (load_qseecom_library env s).2.1, (load_qseecom_library env s).2.2)

/-- `is_hw_disk_encryption` from cryptfs_hw.c: 1 exactly when the mode
string is present and `strcmp` equal to "aes-xts". -/
def is_hw_disk_encryption (encryption_mode : Option String) : Nat :=
  match encryption_mode with
  | some m => if m = "aes-xts" then 1 else 0
  | none => 0

/-- `is_ice_enabled` from cryptfs_hw.c: metadata-partition workaround
first; then the `ro.boot.bootdevice` property (the C code tests the
length `property_get` returned, i.e. whether the value is non-empty),
with "ufs" checked before "sdhc", and the SDCC choice additionally
gated on `/dev/icesdcc` existing. -/
def is_ice_enabled (env : Env) : Int :=
  if env.metadataExists then 0
  else if env.bootdevice ≠ "" then
    if strstrFound env.bootdevice "ufs" then QTI_ICE_STORAGE_UFS
    else if strstrFound env.bootdevice "sdhc" then
      if env.icesdccExists then QTI_ICE_STORAGE_SDCC else 0
    else 0
  else 0

/-- `map_usage` from cryptfs_hw.c. -/
def map_usage (env : Env) (usage : Int) : Int :=
  if usage = CRYPTFS_HW_KM_USAGE_DISK_ENCRYPTION then
    if is_ice_enabled env = QTI_ICE_STORAGE_UFS then CRYPTFS_HW_KM_USAGE_UFS_ICE_DISK_ENCRYPTION
    else if is_ice_enabled env = QTI_ICE_STORAGE_SDCC then CRYPTFS_HW_KM_USAGE_SDCC_ICE_DISK_ENCRYPTION
    else usage
  else usage

/-- C `strnlen` on a NUL-free byte list. -/
def strnlen (p : List Nat) (n : Nat) : Nat := min p.length n

/-- The 32-byte buffer `get_tmp_passwd` builds: zero-filled, then the
first `strnlen(passwd, 32)` bytes copied from the password. -/
def buildTmpPasswd (p : List Nat) : List Nat :=
  p.take (strnlen p MAX_PASSWORD_LEN) ++
    List.replicate (MAX_PASSWORD_LEN - strnlen p MAX_PASSWORD_LEN) 0

/-- `get_tmp_passwd` from cryptfs_hw.c: NULL in, NULL out (no
allocation); otherwise one `malloc` that may fail (NULL out), else the
zero-padded truncated copy. -/
def get_tmp_passwd (passwd : Option (List Nat)) (mallocOk : Bool) :
    Option (List Nat) × List Event :=
  match passwd with
  | none => (none, [])
  | some p =>
    if mallocOk then (some (buildTmpPasswd p), [Event.mallocCall])
    else (none, [Event.mallocCall])

/-- An all-zero 32-byte buffer, the contents `secure_memset` leaves. -/
def zeros32 : List Nat := List.replicate MAX_PASSWORD_LEN 0

/-- The dispatch part of `set_key` after both `get_tmp_passwd` calls:
given the two optional buffers, perform the guarded TEE call and record
each allocated buffer's fate.  Mirrors cryptfs_hw.c lines 220-236: the
whole block (including both `secure_memset`s and both `free`s) is
guarded by `tmp_passwd` being non-NULL, so when `tmp_passwd` is NULL an
allocated `tmp_currentpasswd` is neither zeroed nor freed. -/
def set_key_inner (env : Env) (s : LibState)
    (tmp_passwd tmp_currentpasswd : Option (List Nat)) (operation : Int) :
    Int × LibState × List Event × List BufFate :=
  match tmp_passwd with
  | none =>
    match tmp_currentpasswd with
    | some cbuf => (-1, s, [], [⟨cbuf, false⟩])
    | none => (-1, s, [], [])
  | some pbuf =>
    if operation = UPDATE_HW_DISK_ENC_KEY then
      match tmp_currentpasswd with
      | some cbuf =>
        ((cryptfs_hw_update_key env s (map_usage env CRYPTFS_HW_KM_USAGE_DISK_ENCRYPTION) cbuf pbuf).1,
         (cryptfs_hw_update_key env s (map_usage env CRYPTFS_HW_KM_USAGE_DISK_ENCRYPTION) cbuf pbuf).2.1,
         (cryptfs_hw_update_key env s (map_usage env CRYPTFS_HW_KM_USAGE_DISK_ENCRYPTION) cbuf pbuf).2.2,
         [⟨zeros32, true⟩, ⟨zeros32, true⟩])
      | none => (-1, s, [], [⟨zeros32, true⟩])
    else if operation = SET_HW_DISK_ENC_KEY then
      match tmp_currentpasswd with
      | some cbuf =>
        ((cryptfs_hw_create_key env s (map_usage env CRYPTFS_HW_KM_USAGE_DISK_ENCRYPTION) pbuf).1,
         (cryptfs_hw_create_key env s (map_usage env CRYPTFS_HW_KM_USAGE_DISK_ENCRYPTION) pbuf).2.1,
         (cryptfs_hw_create_key env s (map_usage env CRYPTFS_HW_KM_USAGE_DISK_ENCRYPTION) pbuf).2.2,
         [⟨zeros32, true⟩, ⟨cbuf, true⟩])
      | none =>
        ((cryptfs_hw_create_key env s (map_usage env CRYPTFS_HW_KM_USAGE_DISK_ENCRYPTION) pbuf).1,
         (cryptfs_hw_create_key env s (map_usage env CRYPTFS_HW_KM_USAGE_DISK_ENCRYPTION) pbuf).2.1,
         (cryptfs_hw_create_key env s (map_usage env CRYPTFS_HW_KM_USAGE_DISK_ENCRYPTION) pbuf).2.2,
         [⟨zeros32, true⟩])
    else
      match tmp_currentpasswd with
      | some cbuf => (-1, s, [], [⟨zeros32, true⟩, ⟨cbuf, true⟩])
      | none => (-1, s, [], [⟨zeros32, true⟩])

/-- Combines the two `get_tmp_passwd` results (their malloc events come
first, in call order) with the dispatch. -/
def set_key_body (env : Env) (s : LibState)
    (r1 r2 : Option (List Nat) × List Event) (operation : Int) :
    Int × LibState × List Event × List BufFate :=
  ((set_key_inner env s r1.1 r2.1 operation).1,
   (set_key_inner env s r1.1 r2.1 operation).2.1,
   r1.2 ++ r2.2 ++ (set_key_inner env s r1.1 r2.1 operation).2.2.1,
   (set_key_inner env s r1.1 r2.1 operation).2.2.2)

/-- `set_key` from cryptfs_hw.c: gated on `is_hw_disk_encryption`, then
builds `tmp_passwd` (first malloc) and `tmp_currentpasswd` (second
malloc) and dispatches. -/
def set_key (env : Env) (s : LibState) (currentpasswd passwd : Option (List Nat))
    (enc_mode : Option String) (operation : Int) :
    Int × LibState × List Event × List BufFate :=
  if is_hw_disk_encryption enc_mode ≠ 0 then
    set_key_body env s (get_tmp_passwd passwd (env.mallocOk 0))
      (get_tmp_passwd currentpasswd (env.mallocOk 1)) operation
  else (-1, s, [], [])

/-- `set_hw_device_encryption_key` from cryptfs_hw.c. -/
def set_hw_device_encryption_key (env : Env) (s : LibState)
    (passwd : Option (List Nat)) (enc_mode : Option String) :
    Int × LibState × List Event × List BufFate :=
  set_key env s none passwd enc_mode SET_HW_DISK_ENC_KEY

/-- `update_hw_device_encryption_key` from cryptfs_hw.c. -/
def update_hw_device_encryption_key (env : Env) (s : LibState)
    (oldpw newpw : Option (List Nat)) (enc_mode : Option String) :
    Int × LibState × List Event × List BufFate :=
  set_key env s oldpw newpw enc_mode UPDATE_HW_DISK_ENC_KEY

/-- `clear_hw_device_encryption_key` from cryptfs_hw.c. -/
def clear_hw_device_encryption_key (env : Env) (s : LibState) :
    Int × LibState × List Event :=
  cryptfs_hw_wipe_key env s (map_usage env CRYPTFS_HW_KM_USAGE_DISK_ENCRYPTION)

/-- `get_keymaster_version` from cryptfs_hw.c: the registry lookup's
non-zero return code is passed through, else the module's API version. -/
def get_keymaster_version (env : Env) : Int :=
  if env.hwGetModuleRc ≠ 0 then env.hwGetModuleRc else env.moduleApiVersion

/-- `should_use_keymaster` from cryptfs_hw.c. -/
def should_use_keymaster (env : Env) : Int :=
  if get_keymaster_version env = KEYMASTER_MODULE_API_VERSION_0_3 then 0 else 1

/-- The library-state invariant of the spec: the flag is set only with
all three entry points resolved. -/
def LoadInv (s : LibState) : Prop :=
  s.loaded_library ≠ 0 → (s.createResolved ∧ s.updateResolved ∧ s.wipeResolved)

/-- Backend selection as the spec words it: metadata partition forces
standard; else "ufs" in the boot-device property selects UFS
unconditionally; else "sdhc" selects SDCC only when `/dev/icesdcc`
exists; standard in every remaining case. -/
def ice_backend_spec (env : Env) : Int :=
  if env.metadataExists then 0
  else if strstrFound env.bootdevice "ufs" then QTI_ICE_STORAGE_UFS
  else if strstrFound env.bootdevice "sdhc" && env.icesdccExists then QTI_ICE_STORAGE_SDCC
  else 0

/-- A fixed benign environment used to instantiate theorems at concrete
inputs: readiness never reported, dynamic loading fails, TEE primitives
return 0, every malloc succeeds, metadata partition present, keystore
module found with API version 4. -/
def baseEnv : Env where
  keymasterLoadedPolls := fun _ => ""
  dlopenOk := false
  dlsymCreateOk := false
  dlsymUpdateOk := false
  dlsymWipeOk := false
  qseecomCreate := fun _ _ => 0
  qseecomUpdate := fun _ _ _ => 0
  qseecomWipe := fun _ => 0
  metadataExists := true
  bootdevice := ""
  icesdccExists := false
  mallocOk := fun _ => true
  hwGetModuleRc := 0
  moduleApiVersion := 4

/-- Every event the readiness poll loop emits is a property poll. -/
theorem up_from_mem_poll (env : Env) :
    ∀ (fuel i : Nat) (e : Event), e ∈ (is_qseecom_up_from env i fuel).2 → e = Event.pollReadiness := by
  intro fuel
  induction fuel with
  | zero => intro i e he; simp [is_qseecom_up_from] at he
  | succ n ih =>
    intro i e he
    by_cases h : env.keymasterLoadedPolls i = "true"
    · simp [is_qseecom_up_from, h] at he; exact he
    · simp [is_qseecom_up_from, h] at he
      rcases he with he | he
      · exact he
      · exact ih (i + 1) e he

/-- If the readiness property is never "true" in the polled window, the
poll loop returns 0 after emitting exactly `fuel` polls. -/
theorem up_from_timeout (env : Env) :
    ∀ (fuel i : Nat), (∀ j, i ≤ j → j < i + fuel → env.keymasterLoadedPolls j ≠ "true") →
      is_qseecom_up_from env i fuel = (0, List.replicate fuel Event.pollReadiness) := by
  intro fuel
  induction fuel with
  | zero => intro i _; simp [is_qseecom_up_from]
  | succ n ih =>
    intro i h
    have hi : env.keymasterLoadedPolls i ≠ "true" := h i (Nat.le_refl i) (by omega)
    have hrec := ih (i + 1) (fun j h1 h2 => h j (by omega) (by omega))
    simp [is_qseecom_up_from, hi, hrec, List.replicate_succ]

/-- The readiness wait's event list is a run of polls. -/
theorem up_trace_replicate (env : Env) :
    (is_qseecom_up env).2 = List.replicate (is_qseecom_up env).2.length Event.pollReadiness := by
  have h := up_from_mem_poll env CRYPTFS_HW_UP_CHECK_COUNT 0
  exact List.eq_replicate_iff.mpr ⟨rfl, fun e he => h e he⟩

/-- Once the flag is set, `load_qseecom_library` returns immediately:
same flag, unchanged state, no events (no wait, no resolution). -/
theorem load_of_loaded (env : Env) (s : LibState) (h : s.loaded_library ≠ 0) :
    load_qseecom_library env s = (s.loaded_library, s, []) := by
  simp [load_qseecom_library, h]

/-- `load_qseecom_library` returns exactly the flag stored in the
resulting state. -/
theorem load_fst_eq (env : Env) (s : LibState) :
    (load_qseecom_library env s).1 = (load_qseecom_library env s).2.1.loaded_library := by
  unfold load_qseecom_library
  repeat' split
  all_goals simp_all

/-- `load_qseecom_library` preserves the flag/resolution invariant. -/
theorem load_state_inv (env : Env) (s : LibState) (h : LoadInv s) :
    LoadInv (load_qseecom_library env s).2.1 := by
  unfold load_qseecom_library
  repeat' split
  all_goals simp_all [LoadInv]

/-- The flag is never reset: a clear flag after the call means it was
clear before. -/
theorem load_zero_of_state_zero (env : Env) (s : LibState)
    (h : (load_qseecom_library env s).2.1.loaded_library = 0) : s.loaded_library = 0 := by
  unfold load_qseecom_library at h
  repeat' split at h
  all_goals simp_all

/-- Readiness polling performs no TEE call. -/
theorem up_no_tee (env : Env) : ∀ e ∈ (is_qseecom_up env).2, isTeeEvent e = false := by
  intro e he
  rw [up_from_mem_poll env CRYPTFS_HW_UP_CHECK_COUNT 0 e he]
  rfl

/-- Library loading performs no TEE call. -/
theorem load_trace_no_tee (env : Env) (s : LibState) :
    ∀ e ∈ (load_qseecom_library env s).2.2, isTeeEvent e = false := by
  intro e he
  unfold load_qseecom_library at he
  repeat' split at he
  all_goals
    first
    | exact absurd he (List.not_mem_nil e)
    | exact up_no_tee env e he
    | (rcases List.mem_append.mp he with h | h
       · exact up_no_tee env e h
       · fin_cases h <;> rfl)

/-- When loading sets the flag from the unloaded state, the observed
events are a run of polls followed by `dlopen` and the three `dlsym`
resolutions in the strict order create, update, wipe. -/
theorem load_success_trace (env : Env) (s : LibState)
    (h0 : s.loaded_library = 0) (h1 : (load_qseecom_library env s).2.1.loaded_library ≠ 0) :
    ∃ n, (load_qseecom_library env s).2.2 =
      List.replicate n Event.pollReadiness ++
        [Event.dlopenCall, Event.dlsymCall "QSEECom_create_key",
         Event.dlsymCall "QSEECom_update_key_user_info", Event.dlsymCall "QSEECom_wipe_key"] := by
  by_cases hB : (is_qseecom_up env).1 = 0
  · simp [load_qseecom_library, h0, hB] at h1
  · by_cases hC : env.dlopenOk
    · by_cases hD : env.dlsymCreateOk
      · by_cases hE : env.dlsymUpdateOk
        · by_cases hF : env.dlsymWipeOk
          · refine ⟨(is_qseecom_up env).2.length, ?_⟩
            simp only [load_qseecom_library, h0, hB, hC, hD, hE, hF]
            simp only [ne_eq, not_true_eq_false, if_false, if_true, ite_false, ite_true]
            rw [← up_trace_replicate env]
          · simp [load_qseecom_library, h0, hB, hC, hD, hE, hF] at h1
        · simp [load_qseecom_library, h0, hB, hC, hD, hE] at h1
      · simp [load_qseecom_library, h0, hB, hC, hD] at h1
    · simp [load_qseecom_library, h0, hB, hC] at h1

/-- Each guarded TEE wrapper fails with its own sentinel and performs no
TEE call when loading reports the library unavailable. -/
theorem ops_fail_when_unloaded (env : Env) (s : LibState)
    (h : (load_qseecom_library env s).1 = 0) :
    (∀ usage hash32, cryptfs_hw_create_key env s usage hash32 =
      (CRYPTFS_HW_CREATE_KEY_FAILED, (load_qseecom_library env s).2.1, (load_qseecom_library env s).2.2))
    ∧ (∀ usage oldh newh, cryptfs_hw_update_key env s usage oldh newh =
      (CRYPTFS_HW_UPDATE_KEY_FAILED, (load_qseecom_library env s).2.1, (load_qseecom_library env s).2.2))
    ∧ (∀ usage, cryptfs_hw_wipe_key env s usage =
      (CRYPTFS_HW_WIPE_KEY_FAILED, (load_qseecom_library env s).2.1, (load_qseecom_library env s).2.2)) := by
  refine ⟨fun u h32 => ?_, fun u oh nh => ?_, fun u => ?_⟩ <;>
    simp [cryptfs_hw_create_key, cryptfs_hw_update_key, cryptfs_hw_wipe_key, h]

/-- `get_tmp_passwd` of NULL allocates nothing. -/
theorem get_tmp_none (ok : Bool) : get_tmp_passwd none ok = (none, []) := rfl

/-- Building a password buffer performs no TEE call. -/
theorem get_tmp_no_tee (pw : Option (List Nat)) (ok : Bool) :
    ∀ e ∈ (get_tmp_passwd pw ok).2, isTeeEvent e = false := by
  cases pw with
  | none => simp [get_tmp_passwd]
  | some p => cases ok <;> simp [get_tmp_passwd, isTeeEvent]

/-- C1: the claim states that every password buffer allocated by
`set_hw_device_encryption_key` / `update_hw_device_encryption_key` is
zeroed before release on every exit path, with no residual non-zero
password byte in any buffer the call allocated.  The code refutes it:
in `set_key` the whole zero-and-free block is guarded by `tmp_passwd`
being non-NULL, so `update_hw_device_encryption_key(oldpw, NULL,
"aes-xts")` (and likewise a failed `malloc` of the new-password buffer)
allocates the old-password buffer, copies the old password in, and then
returns without zeroing or freeing it.  This theorem evaluates the model
at that failing input: the call returns -1 and leaves exactly one buffer
fate, unfreed, still holding the non-zero password byte 65. -/
theorem C1_old_password_buffer_leaked_unzeroed :
    (update_hw_device_encryption_key baseEnv initState (some [65]) none (some "aes-xts")).1 = -1
    ∧ (update_hw_device_encryption_key baseEnv initState (some [65]) none (some "aes-xts")).2.2.2
        = [⟨65 :: List.replicate 31 0, false⟩]
    ∧ ∃ f ∈ (update_hw_device_encryption_key baseEnv initState (some [65]) none (some "aes-xts")).2.2.2,
        f.freed = false ∧ ∃ byte ∈ f.contents, byte ≠ 0 := by
  refine ⟨by decide, by decide, ?_⟩
  exact ⟨⟨65 :: List.replicate 31 0, false⟩, by decide, by decide, 65, by decide, by decide⟩

/-- C2: with mode "aes-xts", a non-null password whose buffer allocation
succeeds, the library not already loaded, and the readiness property
never reading "true" during the 100 bounded polls,
`set_hw_device_encryption_key` returns the create-key-failed sentinel
(-7) and invokes no TEE primitive (create, update or wipe). -/
theorem C2_timeout_returns_create_key_failed (env : Env) (s : LibState) (p : List Nat)
    (h1 : s.loaded_library = 0)
    (h2 : ∀ i, i < CRYPTFS_HW_UP_CHECK_COUNT → env.keymasterLoadedPolls i ≠ "true")
    (h3 : env.mallocOk 0 = true) :
    (set_hw_device_encryption_key env s (some p) (some "aes-xts")).1 = CRYPTFS_HW_CREATE_KEY_FAILED
    ∧ ∀ e ∈ (set_hw_device_encryption_key env s (some p) (some "aes-xts")).2.2.1,
        isTeeEvent e = false := by
  have hup : is_qseecom_up env = (0, List.replicate CRYPTFS_HW_UP_CHECK_COUNT Event.pollReadiness) :=
    up_from_timeout env CRYPTFS_HW_UP_CHECK_COUNT 0 (fun j _ hj => h2 j (by omega))
  have hload : load_qseecom_library env s = (0, s, List.replicate CRYPTFS_HW_UP_CHECK_COUNT Event.pollReadiness) := by
    simp [load_qseecom_library, h1, hup]
  have hcreate : ∀ u h32, cryptfs_hw_create_key env s u h32 =
      (CRYPTFS_HW_CREATE_KEY_FAILED, s, List.replicate CRYPTFS_HW_UP_CHECK_COUNT Event.pollReadiness) := by
    intro u h32
    simp [cryptfs_hw_create_key, hload]
  have hmode : is_hw_disk_encryption (some "aes-xts") = 1 := by decide
  have hop : SET_HW_DISK_ENC_KEY ≠ UPDATE_HW_DISK_ENC_KEY := by decide
  constructor
  · simp [set_hw_device_encryption_key, set_key, hmode, set_key_body, get_tmp_passwd, h3,
      set_key_inner, hop, hcreate]
  · simp [set_hw_device_encryption_key, set_key, hmode, set_key_body, get_tmp_passwd, h3,
      set_key_inner, hop, hcreate]
    exact ⟨rfl, fun _ => rfl⟩

/-- Witness for C2 at a concrete environment whose readiness property is
always the empty string. -/
theorem C2_timeout_returns_create_key_failed_witness :
    (set_hw_device_encryption_key baseEnv initState (some [65]) (some "aes-xts")).1
      = CRYPTFS_HW_CREATE_KEY_FAILED :=
  (C2_timeout_returns_create_key_failed baseEnv initState [65] rfl
    (fun i _ => show ("" : String) ≠ "true" from by decide) rfl).1

/-- C3: the loaded flag is set only with all three entry points resolved
(in the order create, update, wipe, witnessed by the event list of a
successful load); once set it is never reset and every later load call
returns at once with no polling and no resolution; while loading reports
the flag clear, each key primitive wrapper fails with its sentinel and
the load itself performs no TEE call (so no resolved reference is ever
called through an unloaded gateway). -/
theorem C3_loaded_flag_invariant (env : Env) (s : LibState) (hInv : LoadInv s) :
    LoadInv (load_qseecom_library env s).2.1
    ∧ (s.loaded_library ≠ 0 → load_qseecom_library env s = (s.loaded_library, s, []))
    ∧ ((load_qseecom_library env s).2.1.loaded_library = 0 → s.loaded_library = 0)
    ∧ (s.loaded_library = 0 → (load_qseecom_library env s).2.1.loaded_library ≠ 0 →
        ∃ n, (load_qseecom_library env s).2.2 =
          List.replicate n Event.pollReadiness ++
            [Event.dlopenCall, Event.dlsymCall "QSEECom_create_key",
             Event.dlsymCall "QSEECom_update_key_user_info", Event.dlsymCall "QSEECom_wipe_key"])
    ∧ ((load_qseecom_library env s).1 = 0 →
        (∀ usage hash32, cryptfs_hw_create_key env s usage hash32 =
          (CRYPTFS_HW_CREATE_KEY_FAILED, (load_qseecom_library env s).2.1, (load_qseecom_library env s).2.2))
        ∧ (∀ usage oldh newh, cryptfs_hw_update_key env s usage oldh newh =
          (CRYPTFS_HW_UPDATE_KEY_FAILED, (load_qseecom_library env s).2.1, (load_qseecom_library env s).2.2))
        ∧ (∀ usage, cryptfs_hw_wipe_key env s usage =
          (CRYPTFS_HW_WIPE_KEY_FAILED, (load_qseecom_library env s).2.1, (load_qseecom_library env s).2.2)))
    ∧ (∀ e ∈ (load_qseecom_library env s).2.2, isTeeEvent e = false) :=
  ⟨load_state_inv env s hInv, load_of_loaded env s, load_zero_of_state_zero env s,
    load_success_trace env s, ops_fail_when_unloaded env s, load_trace_no_tee env s⟩

/-- Witness for C3: from an already-loaded state, loading returns the
flag at once, leaves the state unchanged and performs no event. -/
theorem C3_loaded_flag_invariant_witness :
    load_qseecom_library baseEnv ⟨1, true, true, true⟩ = (1, ⟨1, true, true, true⟩, []) :=
  (C3_loaded_flag_invariant baseEnv ⟨1, true, true, true⟩ (fun _ => ⟨rfl, rfl, rfl⟩)).2.1 (by decide)

/-- C4: `is_ice_enabled` computes exactly the backend the spec words
describe: metadata partition present forces standard (0) regardless of
the boot-device property; else "ufs" in the property selects the UFS
code (1) unconditionally; else "sdhc" selects the SDCC code (2) only
when `/dev/icesdcc` exists; standard (0) in every remaining case. -/
theorem C4_is_ice_enabled_matches_spec (env : Env) :
    is_ice_enabled env = ice_backend_spec env := by
  unfold is_ice_enabled ice_backend_spec
  by_cases hm : env.metadataExists
  · simp [hm]
  · by_cases hb : env.bootdevice = ""
    · have h1 : strstrFound "" "ufs" = false := by decide
      have h2 : strstrFound "" "sdhc" = false := by decide
      simp [hm, hb, h1, h2]
    · cases hu : strstrFound env.bootdevice "ufs" <;>
        cases hs : strstrFound env.bootdevice "sdhc" <;>
          cases hi : env.icesdccExists <;> simp [hm, hb, hu, hs, hi]

/-- C5: `is_hw_disk_encryption` returns 1 (true) exactly when the mode
is the literal "aes-xts" and 0 (false) for NULL and every other
string. -/
theorem C5_is_hw_disk_encryption_iff_aes_xts (mode : Option String) :
    is_hw_disk_encryption mode = if mode = some "aes-xts" then 1 else 0 := by
  cases mode with
  | none => simp [is_hw_disk_encryption]
  | some m => simp [is_hw_disk_encryption]

/-- C6: when the encryption-mode argument is not the activating literal
"aes-xts" (NULL or any other string), both key-setting entry points
return the -1 sentinel as plain return values, leave the library state
untouched, emit no event (so no password buffer is allocated and no TEE
primitive is invoked) and record no buffer fate. -/
theorem C6_non_activating_mode_is_noop (env : Env) (s : LibState)
    (current passwd : Option (List Nat)) (mode : Option String)
    (hmode : mode ≠ some "aes-xts") :
    set_hw_device_encryption_key env s passwd mode = (-1, s, [], [])
    ∧ update_hw_device_encryption_key env s current passwd mode = (-1, s, [], []) := by
  have h0 : is_hw_disk_encryption mode = 0 := by
    cases mode with
    | none => rfl
    | some m =>
      have : m ≠ "aes-xts" := by simpa using hmode
      simp [is_hw_disk_encryption, this]
  constructor <;>
    simp [set_hw_device_encryption_key, update_hw_device_encryption_key, set_key, h0]

/-- Witness for C6 at the mode string "foo". -/
theorem C6_non_activating_mode_is_noop_witness :
    set_hw_device_encryption_key baseEnv initState (some [65]) (some "foo")
      = (-1, initState, [], [])
    ∧ update_hw_device_encryption_key baseEnv initState (some [66]) (some [65]) (some "foo")
      = (-1, initState, [], []) :=
  C6_non_activating_mode_is_noop baseEnv initState (some [66]) (some [65]) (some "foo") (by decide)

/-- C7: `clear_hw_device_encryption_key` takes no mode argument and is
gated by no encryption-mode check: for every environment and state it
forwards to the wipe primitive tagged with the backend-mapped usage code
(`map_usage` of the generic disk-encryption tag), returning the
primitive's raw status when loading succeeds, and the distinct
wipe-key-failed sentinel (-8) when it does not. -/
theorem C7_wipe_key_unconditional_forwarding (env : Env) (s : LibState) :
    ((load_qseecom_library env s).1 ≠ 0 →
      clear_hw_device_encryption_key env s =
        (env.qseecomWipe (map_usage env CRYPTFS_HW_KM_USAGE_DISK_ENCRYPTION),
         (load_qseecom_library env s).2.1,
         (load_qseecom_library env s).2.2 ++
           [Event.teeWipe (map_usage env CRYPTFS_HW_KM_USAGE_DISK_ENCRYPTION)]))
    ∧ ((load_qseecom_library env s).1 = 0 →
      clear_hw_device_encryption_key env s =
        (CRYPTFS_HW_WIPE_KEY_FAILED, (load_qseecom_library env s).2.1,
         (load_qseecom_library env s).2.2)) := by
  constructor <;> intro h <;>
    simp [clear_hw_device_encryption_key, cryptfs_hw_wipe_key, h]

/-- Witness for C7: with the library loaded and a wipe primitive that
returns 42, the wipe result is passed through raw, tagged with the
generic disk-encryption usage (the metadata partition being present
keeps the backend standard). -/
theorem C7_wipe_key_unconditional_forwarding_witness :
    clear_hw_device_encryption_key { baseEnv with qseecomWipe := fun _ => 42 }
        ⟨1, true, true, true⟩
      = (42, ⟨1, true, true, true⟩,
         [Event.teeWipe CRYPTFS_HW_KM_USAGE_DISK_ENCRYPTION]) := by
  have h := (C7_wipe_key_unconditional_forwarding { baseEnv with qseecomWipe := fun _ => 42 }
    ⟨1, true, true, true⟩).1 (by decide)
  rw [h]
  decide

/-- C8: for a non-null password whose allocation succeeds, the buffer
handed on is `buildTmpPasswd`; it is always exactly 32 bytes; for an
input longer than 32 bytes it is a strict prefix of the input; for a
shorter input it starts with the whole input and every remaining byte is
zero. -/
theorem C8_password_buffer_truncate_pad (p : List Nat) :
    (get_tmp_passwd (some p) true).1 = some (buildTmpPasswd p)
    ∧ (buildTmpPasswd p).length = MAX_PASSWORD_LEN
    ∧ (MAX_PASSWORD_LEN < p.length → buildTmpPasswd p <+: p ∧ buildTmpPasswd p ≠ p)
    ∧ (p.length < MAX_PASSWORD_LEN →
        p <+: buildTmpPasswd p
        ∧ (buildTmpPasswd p).drop p.length = List.replicate (MAX_PASSWORD_LEN - p.length) 0) := by
  refine ⟨by simp [get_tmp_passwd], ?_, ?_, ?_⟩
  · simp [buildTmpPasswd, strnlen, MAX_PASSWORD_LEN]
  · intro hlong
    have hmin : strnlen p MAX_PASSWORD_LEN = MAX_PASSWORD_LEN := by
      simp [strnlen]; omega
    have hb : buildTmpPasswd p = p.take MAX_PASSWORD_LEN := by
      simp [buildTmpPasswd, hmin]
    constructor
    · rw [hb]; exact List.take_prefix _ _
    · rw [hb]
      intro heq
      have := congrArg List.length heq
      simp [List.length_take] at this
      omega
  · intro hshort
    have hmin : strnlen p MAX_PASSWORD_LEN = p.length := by
      simp [strnlen]; omega
    have hb : buildTmpPasswd p = p ++ List.replicate (MAX_PASSWORD_LEN - p.length) 0 := by
      simp [buildTmpPasswd, hmin]
    constructor
    · rw [hb]; exact List.prefix_append _ _
    · rw [hb]; exact List.drop_left _ _

/-- Witness for C8: a 33-byte password is truncated to a 32-byte strict
prefix; a 1-byte password is kept as a prefix with the rest zero. -/
theorem C8_password_buffer_truncate_pad_witness :
    (buildTmpPasswd (List.replicate 33 7) <+: List.replicate 33 7
      ∧ buildTmpPasswd (List.replicate 33 7) ≠ List.replicate 33 7)
    ∧ ([5] <+: buildTmpPasswd [5]
      ∧ (buildTmpPasswd [5]).drop ([5] : List Nat).length
          = List.replicate (MAX_PASSWORD_LEN - ([5] : List Nat).length) 0) :=
  ⟨(C8_password_buffer_truncate_pad (List.replicate 33 7)).2.2.1 (by decide),
   (C8_password_buffer_truncate_pad [5]).2.2.2 (by decide)⟩

/-- C9: `should_use_keymaster` returns 0 (false) exactly when the probed
keystore version equals the legacy constant 0.3; it returns 1 (true) for
every other probe outcome, in particular whenever the registry lookup
fails with a negative error code. -/
theorem C9_should_use_keymaster_legacy_carveout (env : Env) :
    (should_use_keymaster env = 0 ↔
      get_keymaster_version env = KEYMASTER_MODULE_API_VERSION_0_3)
    ∧ (get_keymaster_version env ≠ KEYMASTER_MODULE_API_VERSION_0_3 →
      should_use_keymaster env = 1)
    ∧ (env.hwGetModuleRc < 0 → should_use_keymaster env = 1) := by
  unfold should_use_keymaster
  refine ⟨?_, ?_, ?_⟩
  · by_cases h : get_keymaster_version env = KEYMASTER_MODULE_API_VERSION_0_3 <;> simp [h]
  · intro h; simp [h]
  · intro h
    have hne : get_keymaster_version env ≠ KEYMASTER_MODULE_API_VERSION_0_3 := by
      unfold get_keymaster_version KEYMASTER_MODULE_API_VERSION_0_3
      have : env.hwGetModuleRc ≠ 0 := by omega
      simp [this]; omega
    simp [hne]

/-- Witness for C9: a failed probe (error code -2) still recommends
keymaster binding. -/
theorem C9_should_use_keymaster_legacy_carveout_witness :
    should_use_keymaster { baseEnv with hwGetModuleRc := -2 } = 1 :=
  (C9_should_use_keymaster_legacy_carveout { baseEnv with hwGetModuleRc := -2 }).2.2 (by decide)

/-- C10: a NULL password makes both key-setting entry points return -1
with no TEE primitive invoked, for every environment, state, old
password and mode (including "aes-xts"): `get_tmp_passwd` maps NULL to
NULL without allocating, and the dispatch forwards nothing. -/
theorem C10_null_password_rejected (env : Env) (s : LibState)
    (oldpw : Option (List Nat)) (mode : Option String) :
    ((set_hw_device_encryption_key env s none mode).1 = -1
      ∧ ∀ e ∈ (set_hw_device_encryption_key env s none mode).2.2.1, isTeeEvent e = false)
    ∧ ((update_hw_device_encryption_key env s oldpw none mode).1 = -1
      ∧ ∀ e ∈ (update_hw_device_encryption_key env s oldpw none mode).2.2.1,
          isTeeEvent e = false) := by
  by_cases hm : is_hw_disk_encryption mode ≠ 0
  · refine ⟨⟨?_, ?_⟩, ⟨?_, ?_⟩⟩
    · simp [set_hw_device_encryption_key, set_key, hm, set_key_body, get_tmp_none, set_key_inner]
    · simp [set_hw_device_encryption_key, set_key, hm, set_key_body, get_tmp_none, set_key_inner]
    · cases h2 : (get_tmp_passwd oldpw (env.mallocOk 1)).1 <;>
        simp [update_hw_device_encryption_key, set_key, hm, set_key_body, get_tmp_none,
          set_key_inner, h2]
    · intro e he
      cases h2 : (get_tmp_passwd oldpw (env.mallocOk 1)).1 <;>
        simp [update_hw_device_encryption_key, set_key, hm, set_key_body, get_tmp_none,
          set_key_inner, h2] at he <;>
        exact get_tmp_no_tee oldpw (env.mallocOk 1) e he
  · push_neg at hm
    refine ⟨⟨?_, ?_⟩, ⟨?_, ?_⟩⟩ <;>
      simp [set_hw_device_encryption_key, update_hw_device_encryption_key, set_key, hm]
